import Mathlib

/-!
# Verification of the BLE GATT session manager

Shallow embedding of the repository's two source files:

* `src/app/(tabs)/ble.tsx` — the React Native central/client component
  (`BluetoothClient`).  Its `useState`/`useRef` cells become fields of
  `CState`; every handler (`startScan`, the scan-timeout callback, the
  scan-result callback, `handleConnect` with the continuations of its two
  `await`s, `handleDisconnect`, the `onDisconnected` listener, the
  `manager.onStateChange` listener, `sendData`, `readCharacteristicData`)
  becomes a function `CState → CState`.  Asynchronous resolutions of the
  platform promises are delivered as explicit events (`Event`), and a trace
  of events is executed by `run`.

  React semantics that matter for faithfulness:
  * `useRef` cells (`deviceRef`, `disconnectSubscriptionRef`) always read the
    current value — fields updated in place.
  * a callback created inside a handler (the `setTimeout` scan-timeout
    callback, ble.tsx lines 158-165) closes over the `useState` *bindings of
    the render that created it*; `setIsScanning(true)` later in the same
    handler does not change that captured binding.  The capture is therefore
    stored alongside the timer (`timers`), with the value `isScanning` had on
    entry to `startScan` (necessarily `false`, because of the early-return
    guard at line 118).
  * a handler invoked directly by the UI (button press, list tap) is the one
    from the latest committed render, so it reads the latest committed state.

* `src/unnamed/part_000` — the bleno peripheral (`SmartSpeaker` advertiser).
  Embedded are its fixed identifiers and the decoding performed by its
  `onWriteRequest` handler.

Instrumentation counters (`stopScanCount`, `subRemoveCount`, `cancelCalls`,
`writeCount`, `readCount`) record how many times the corresponding platform
call (`manager.stopDeviceScan()`, `subscription.remove()`,
`device.cancelConnection()`, characteristic write / read) has been issued;
they let theorems speak about "effect applied exactly once".

`phase` is the spec's Session state (§4.3).  It is assigned exactly at the
code points where the component announces the corresponding milestone via
`setStatusMessage` / its flags: `Scanning` at ble.tsx line 135-136,
`Connecting` at 174-175, `Discovering` at 204, `Ready` at 207-208,
`Disconnecting` at 228-229, `Disconnected` at 192-194 / 238-239 / forced
cleanup paths.

Platform contract assumed (documented, spec §5/§6): a `connect`/`discover`
promise whose connection was cancelled (adapter off fired
`cancelConnection`, or the peripheral link already reported disconnected)
settles by rejection, never by successful resolution.  This is the
`pendingCancelled` flag and the guards of `connectOkStep`/`discoverOkStep`.
-/

namespace BLEApp

/-- Client-side configuration, ble.tsx line 19: name set on the Raspberry Pi. -/
def RPI_PERIPHERAL_NAME_TARGET : String := "MyRaspberryPiSettings"

/-- Client-side configuration, ble.tsx line 20. -/
def RPI_SERVICE_UUID : String := "11111111-2222-3333-4444-555555555555"

/-- Client-side configuration, ble.tsx line 21. -/
def RPI_CHARACTERISTIC_UUID : String := "66666666-7777-8888-9999-000000000000"

/-- Peripheral configuration, part_000 line 4. -/
def SERVICE_UUID : String := "12345678-1234-1234-1234-123456789abc"

/-- Peripheral configuration, part_000 line 5. -/
def CHARACTERISTIC_UUID : String := "87654321-4321-4321-4321-cba987654321"

/-- Name under which the peripheral advertises, part_000 line 16. -/
def ADVERTISED_NAME : String := "SmartSpeaker"

/-- Radio adapter state (react-native-ble-plx `State`, values used by ble.tsx). -/
inductive AdapterState
  | Unknown
  | Unsupported
  | PoweredOff
  | PoweredOn
  | Resetting
deriving DecidableEq, Repr

/-- A discovered peripheral: stable identity plus optional advertised name
(ble-plx `Device`, the two fields the client code reads for logic). -/
structure Device where
  id : String
  name : Option String
deriving DecidableEq, Repr

/-- The spec's Session states (§4.3). -/
inductive Phase
  | Idle
  | Scanning
  | Connecting
  | Discovering
  | Ready
  | Disconnecting
  | Disconnected
deriving DecidableEq, Repr

/-- Which platform promise `handleConnect`/`handleDisconnect` is currently
awaiting: `device.connect` (ble.tsx 203), `discoverAllServicesAndCharacteristics`
(206), or `cancelConnection` (231). -/
inductive Pending
  | connect (d : Device)
  | discover (d : Device)
  | disconnect
deriving DecidableEq, Repr

/-- Error taxonomy of spec §7, restricted to the kinds the client code can
signal (via `Alert.alert` / `setStatusMessage` error texts).  No code path
produces `ScanTimeout`; the constructor exists to state that fact. -/
inductive BleError
  | NotConnected
  | ScanTimeout
  | ScanFailed
  | ConnectionFailed
  | WriteFailed
  | ReadFailed
  | DisconnectFailed
deriving DecidableEq, Repr

/-- The component's state: `useState` cells, `useRef` cells, the pending
platform promise, armed scan-timeout timers with their closure captures, the
underlying radio scan state, the abstract phase, and effect counters. -/
structure CState where
  isScanning : Bool
  foundDevices : List Device
  connectedDevice : Option Device
  isConnecting : Bool
  permissionsGranted : Bool
  bluetoothState : Option AdapterState
  deviceRef : Option Device
  disconnectSub : Option Nat
  nextSub : Nat
  pending : Option Pending
  pendingCancelled : Bool
  timers : List Bool
  scanActive : Bool
  phase : Phase
  lastError : Option BleError
  receivedData : Option String
  subRemoveCount : Nat
  stopScanCount : Nat
  cancelCalls : Nat
  writeCount : Nat
  readCount : Nat
deriving DecidableEq, Repr

/-- Initial component state (the `useState` initialisers of ble.tsx 28-40). -/
def initState : CState where
  isScanning := false
  foundDevices := []
  connectedDevice := none
  isConnecting := false
  permissionsGranted := false
  bluetoothState := none
  deviceRef := none
  disconnectSub := none
  nextSub := 0
  pending := none
  pendingCancelled := false
  timers := []
  scanActive := false
  phase := Phase.Idle
  lastError := none
  receivedData := none
  subRemoveCount := 0
  stopScanCount := 0
  cancelCalls := 0
  writeCount := 0
  readCount := 0

/-- `startScan`, ble.tsx 117-166.  Guards in source order: already scanning
(118), permissions / adapter (119-122), clear found list (125), already
connected (126-129).  On success: `setIsScanning(true)`,
`manager.startDeviceScan` (radio scan on), and `setTimeout` arming a timer
whose callback captured the *entry* value of `isScanning` (necessarily
`false` here) — the stale-closure capture described in the header. -/
def startScan (s : CState) : CState :=
  if s.isScanning then s
  else if ¬ s.permissionsGranted then s
  else if s.bluetoothState ≠ some AdapterState.PoweredOn then s
  else if s.connectedDevice ≠ none then { s with foundDevices := [] }
  else
    { s with foundDevices := [], isScanning := true, scanActive := true,
             phase := Phase.Scanning, timers := s.timers ++ [s.isScanning] }

/-- Body of the `setTimeout` callback, ble.tsx 159-165, parameterised by the
closure-captured value of `isScanning`.  Only if that captured value is
`true` does it call `manager.stopDeviceScan()` and reset the scanning state
(the code's comment says it checks whether the session "is still in scanning
state", but the capture is the value at `startScan` entry). -/
def scanTimeoutFire (capturedIsScanning : Bool) (s : CState) : CState :=
  if capturedIsScanning then
    { s with scanActive := false, stopScanCount := s.stopScanCount + 1,
             isScanning := false, phase := Phase.Idle }
  else s

/-- Scan-result callback error branch, ble.tsx 139-144: set status, stop the
scanning state flag (but no `stopDeviceScan` call).  Only runs while the scan
is active, since the callback belongs to the active scan. -/
def scanErrorStep (s : CState) : CState :=
  if s.scanActive then
    { s with isScanning := false, lastError := some BleError.ScanFailed,
             phase := if s.phase = Phase.Scanning then Phase.Idle else s.phase }
  else s

/-- Scan-result callback success branch, ble.tsx 146-155: deduplicate by
`id`, append new device. -/
def foundStep (d : Device) (s : CState) : CState :=
  if s.scanActive then
    if s.foundDevices.any (fun x => x.id = d.id) then s
    else { s with foundDevices := s.foundDevices ++ [d] }
  else s

/-- Synchronous part of `handleConnect`, ble.tsx 168-203, up to the first
`await`: busy/connected guard (169-172), set connecting, stop an in-flight
scan (176-179), remove a previous disconnect subscription (182-185), set
`deviceRef` early (188), register the `onDisconnected` subscription (190),
then issue `device.connect` (203). -/
def connectBegin (d : Device) (s : CState) : CState :=
  if s.isConnecting then s
  else if s.connectedDevice ≠ none then s
  else
    { s with isConnecting := true, phase := Phase.Connecting,
             isScanning := false,
             scanActive := if s.isScanning then false else s.scanActive,
             stopScanCount := if s.isScanning then s.stopScanCount + 1 else s.stopScanCount,
             subRemoveCount := if s.disconnectSub = none then s.subRemoveCount
                               else s.subRemoveCount + 1,
             deviceRef := some d,
             disconnectSub := some s.nextSub, nextSub := s.nextSub + 1,
             pending := some (Pending.connect d), pendingCancelled := false }

/-- Successful resolution of `device.connect` (ble.tsx 203-204): the session
reports "Discovering services" and issues the discovery call (206).  A
cancelled connect cannot resolve successfully (platform contract). -/
def connectOkStep (s : CState) : CState :=
  match s.pending with
  | some (Pending.connect d) =>
      if s.pendingCancelled then s
      else { s with phase := Phase.Discovering, pending := some (Pending.discover d) }
  | _ => s

/-- Successful resolution of `discoverAllServicesAndCharacteristics`
(ble.tsx 206-209): `setConnectedDevice`, ready status, clear found list; the
`finally` (221-223) clears the busy flag. -/
def discoverOkStep (s : CState) : CState :=
  match s.pending with
  | some (Pending.discover d) =>
      if s.pendingCancelled then s
      else { s with connectedDevice := some d, phase := Phase.Ready,
                    foundDevices := [], pending := none, isConnecting := false }
  | _ => s

/-- The `catch` block of `handleConnect`, ble.tsx 210-220 (plus the
`finally`): remove the disconnect subscription, null `deviceRef` only when it
still holds the device this attempt was for (218-220). -/
def connectCatch (d : Device) (s : CState) : CState :=
  { s with subRemoveCount := if s.disconnectSub = none then s.subRemoveCount
                             else s.subRemoveCount + 1,
           disconnectSub := none,
           deviceRef := match s.deviceRef with
                        | some r => if r.id = d.id then none else some r
                        | none => none,
           phase := Phase.Disconnected, lastError := some BleError.ConnectionFailed,
           pending := none, isConnecting := false }

/-- Rejection of the pending `connect` or `discover` promise: both land in
the same `catch` block of `handleConnect`. -/
def connectFailStep (s : CState) : CState :=
  match s.pending with
  | some (Pending.connect d) => connectCatch d s
  | some (Pending.discover d) => connectCatch d s
  | _ => s

/-- Synchronous part of `handleDisconnect`, ble.tsx 226-231: requires a
device ref (227, else only a status message), sets the busy flag (228), and
issues `cancelConnection` (231).  The Disconnect button is disabled while
`isConnecting` (ble.tsx 348), which is the outer guard. -/
def disconnectBegin (s : CState) : CState :=
  if s.isConnecting then s
  else
    match s.deviceRef with
    | some _ => { s with isConnecting := true, phase := Phase.Disconnecting,
                         pending := some Pending.disconnect }
    | none => s

/-- Successful resolution of `cancelConnection` (ble.tsx 232-233 and the
`finally` 244-246): state cleanup is left to the `onDisconnected` listener. -/
def disconnectOkStep (s : CState) : CState :=
  if s.pending = some Pending.disconnect then
    { s with pending := none, isConnecting := false }
  else s

/-- The `catch` block of `handleDisconnect`, ble.tsx 234-243 (plus
`finally`): fallback cleanup of both refs and the subscription so the session
is not left stuck if `onDisconnected` does not fire. -/
def disconnectFailStep (s : CState) : CState :=
  if s.pending = some Pending.disconnect then
    { s with connectedDevice := none, deviceRef := none,
             lastError := some BleError.DisconnectFailed,
             subRemoveCount := if s.disconnectSub = none then s.subRemoveCount
                               else s.subRemoveCount + 1,
             disconnectSub := none,
             phase := Phase.Disconnected, pending := none, isConnecting := false }
  else s

/-- Body of the `onDisconnected` listener, ble.tsx 190-201: clear both device
references, and remove the subscription handle ("clean itself up") only when
it is still present.  Marks any in-flight connect/discover as cancelled:
after the link reported disconnected, that promise can only reject (platform
contract). -/
def onDisconnectedFire (s : CState) : CState :=
  { s with connectedDevice := none, deviceRef := none,
           phase := Phase.Disconnected, pendingCancelled := true,
           subRemoveCount := if s.disconnectSub = none then s.subRemoveCount
                             else s.subRemoveCount + 1,
           disconnectSub := none }

/-- The `manager.onStateChange` listener, ble.tsx 71-90.  On `PoweredOn` it
records the state (the permission check resolves later as a `permResult`
event).  Otherwise (lines 77-89): record state, drop permissions, clear the
`isScanning` flag, best-effort `cancelConnection` when a device ref exists
(82-85) — which also dooms any in-flight connect/discover promise — then
clear both refs and the found list.  Note what it does *not* do: no
`manager.stopDeviceScan()` call and no subscription removal. -/
def btStateChange (st : AdapterState) (s : CState) : CState :=
  if st = AdapterState.PoweredOn then
    { s with bluetoothState := some st }
  else
    { s with bluetoothState := some st, permissionsGranted := false,
             isScanning := false,
             cancelCalls := if s.deviceRef = none then s.cancelCalls else s.cancelCalls + 1,
             pendingCancelled := if s.deviceRef = none then s.pendingCancelled else true,
             connectedDevice := none, deviceRef := none, foundDevices := [],
             phase := if s.deviceRef ≠ none then Phase.Disconnected
                      else if s.phase = Phase.Scanning then Phase.Idle else s.phase }

/-- `sendData`, ble.tsx 252-270, with the transport outcome of the single
`writeCharacteristicWithResponseForService` call injected as `ok`.  The guard
(253-256) requires both `deviceRef` and `connectedDevice`; otherwise it
alerts and performs no write. -/
def sendData (ok : Bool) (s : CState) : CState :=
  if s.deviceRef = none ∨ s.connectedDevice = none then
    { s with lastError := some BleError.NotConnected }
  else if ok then
    { s with writeCount := s.writeCount + 1, lastError := none }
  else
    { s with writeCount := s.writeCount + 1, lastError := some BleError.WriteFailed }

/-- `readCharacteristicData`, ble.tsx 272-290, with the outcome of the single
`readCharacteristicForService` call injected: `some v` is a resolved read
whose decoded value is `v`, `none` a rejection.  Same both-refs guard
(273-276). -/
def readData (outcome : Option String) (s : CState) : CState :=
  if s.deviceRef = none ∨ s.connectedDevice = none then
    { s with lastError := some BleError.NotConnected }
  else
    match outcome with
    | some v => { s with readCount := s.readCount + 1, receivedData := some v,
                         lastError := none }
    | none => { s with readCount := s.readCount + 1, lastError := some BleError.ReadFailed }

/-- The four independent event sources of spec §5, serialised: platform
callbacks, timer firings, promise settlements, and user-initiated actions.
User actions carry the UI gating of the component's render (ble.tsx 315,
339, 342, 348: buttons disabled while `isConnecting`; the device list and
send/read/disconnect controls shown according to `connectedDevice`). -/
inductive Event
  | btState (st : AdapterState)
  | permResult (g : Bool)
  | scanPress
  | found (d : Device)
  | scanFail
  | scanTimeout
  | tapConnect (d : Device)
  | connectOk
  | discoverOk
  | connectFail
  | userDisconnect
  | disconnectOk
  | disconnectFail
  | unsolicited
  | sendPress (ok : Bool)
  | readPress (outcome : Option String)
deriving DecidableEq, Repr

/-- One serialised step of the session.  `scanTimeout` fires the oldest armed
timer with its closure capture; `unsolicited` can only fire while the
listener subscription exists; taps only reach devices in the displayed list. -/
def step (e : Event) (s : CState) : CState :=
  match e with
  | Event.btState st => btStateChange st s
  | Event.permResult g => { s with permissionsGranted := g }
  | Event.scanPress => if s.isConnecting then s else startScan s
  | Event.found d => foundStep d s
  | Event.scanFail => scanErrorStep s
  | Event.scanTimeout =>
      match s.timers with
      | [] => s
      | c :: rest => scanTimeoutFire c { s with timers := rest }
  | Event.tapConnect d => if d ∈ s.foundDevices then connectBegin d s else s
  | Event.connectOk => connectOkStep s
  | Event.discoverOk => discoverOkStep s
  | Event.connectFail => connectFailStep s
  | Event.userDisconnect => disconnectBegin s
  | Event.disconnectOk => disconnectOkStep s
  | Event.disconnectFail => disconnectFailStep s
  | Event.unsolicited => if s.disconnectSub ≠ none then onDisconnectedFire s else s
  | Event.sendPress ok =>
      if s.isConnecting ∨ s.connectedDevice = none then s else sendData ok s
  | Event.readPress outcome =>
      if s.isConnecting ∨ s.connectedDevice = none then s else readData outcome s

/-- Execute a trace of events in order. -/
def run (tr : List Event) (s : CState) : CState :=
  match tr with
  | [] => s
  | e :: rest => run rest (step e s)

/-! ## Concrete scenario states -/

/-- A concrete peripheral used in the scenario theorems. -/
def devEx : Device := { id := "AA:BB:CC:DD:EE:FF", name := some "MyRaspberryPiSettings" }

/-- Adapter on, permissions granted, session idle. -/
def idleReadyState : CState :=
  run [Event.btState AdapterState.PoweredOn, Event.permResult true] initState

/-- A scan has been started from `idleReadyState`; nothing found yet. -/
def scanningState : CState := step Event.scanPress idleReadyState

/-- A scan during which `devEx` has been discovered. -/
def scanningFoundState : CState := step (Event.found devEx) scanningState

/-- Happy-path trace to a Ready session connected to `devEx`. -/
def readyState : CState :=
  run [Event.tapConnect devEx, Event.connectOk, Event.discoverOk] scanningFoundState

/-- A connection attempt in flight: `deviceRef` already set, discovery not
yet complete, `connectedDevice` still null. -/
def connectingState : CState := step (Event.tapConnect devEx) scanningFoundState

/-! ## C1 — scan-timeout vs. match race -/

/-- C1: the scan-timeout timer fires while the session is genuinely still in
`Scanning` (no match has been delivered), and the handler performs no action
at all: the scan is not stopped, the session does not move to `Idle`.  The
claim's current-state-equality guard is absent — the callback tests the
closure-captured `isScanning` (the value at `startScan` entry, always
`false`), so the timeout side of the (match, timeout) pair can never take
effect; only the user-initiated connect ever moves the session out of
`Scanning`. -/
theorem timeout_fires_in_scanning_does_nothing :
    scanningFoundState.phase = Phase.Scanning ∧
    step Event.scanTimeout scanningFoundState = { scanningFoundState with timers := [] } ∧
    (step Event.scanTimeout scanningFoundState).phase = Phase.Scanning ∧
    (step Event.scanTimeout scanningFoundState).scanActive = true ∧
    (step Event.scanTimeout scanningFoundState).stopScanCount = 0 := by
  refine ⟨rfl, rfl, rfl, rfl, rfl⟩

/-! ## C2 — scan timeout with no match -/

/-- C2: a scan that runs into its 10 s timeout with no matching peripheral is
*not* stopped: `isScanning` stays `true`, the underlying radio scan keeps
running (`manager.stopDeviceScan` never called), no `ScanTimeout` error is
signalled, and a subsequent `startScan()` press is a no-op because of the
`isScanning` early return — contradicting the claimed return to `Idle` and
rescannability. -/
theorem scan_never_times_out :
    (step Event.scanTimeout scanningState).isScanning = true ∧
    (step Event.scanTimeout scanningState).scanActive = true ∧
    (step Event.scanTimeout scanningState).stopScanCount = 0 ∧
    (step Event.scanTimeout scanningState).lastError = none ∧
    (step Event.scanTimeout scanningState).phase = Phase.Scanning ∧
    step Event.scanPress (step Event.scanTimeout scanningState) =
      step Event.scanTimeout scanningState := by
  refine ⟨rfl, rfl, rfl, rfl, rfl, rfl⟩

/-! ## C3 — client/peripheral identifier agreement -/

/-- C3: the three identifiers the client is configured with do not match
those of the peripheral in this repository: the service UUID, the
characteristic UUID, and the advertised name all differ, so the
service-filtered scan (`manager.startDeviceScan([RPI_SERVICE_UUID], ...)`)
can never discover `part_000`'s advertiser. -/
theorem client_peripheral_identifiers_differ :
    RPI_SERVICE_UUID ≠ SERVICE_UUID ∧
    RPI_CHARACTERISTIC_UUID ≠ CHARACTERISTIC_UUID ∧
    RPI_PERIPHERAL_NAME_TARGET ≠ ADVERTISED_NAME := by
  refine ⟨by decide, by decide, by decide⟩

/-! ## C4 — adapter leaving PoweredOn -/

/-- C4 counterexample: the claim states that on a transition out of
`PoweredOn` the handler stops the underlying radio device scan.  Concretely,
with a scan running, the `onStateChange` handler for `PoweredOff` leaves the
radio scan running (`scanActive` still `true`) and issues no
`manager.stopDeviceScan()` call. -/
theorem bt_off_leaves_radio_scan_running :
    ¬ ((btStateChange AdapterState.PoweredOff scanningState).scanActive = false) ∧
    (btStateChange AdapterState.PoweredOff scanningState).stopScanCount =
      scanningState.stopScanCount := by
  refine ⟨by decide, rfl⟩

/-- C4 amended: on every adapter transition out of `PoweredOn` the handler
clears the connection (best-effort `cancelConnection` when a device reference
exists, `connectedDevice` and `deviceRef` nulled), drops permissions, clears
the found list and the `isScanning` flag — but it does not touch the
underlying radio scan (`scanActive` unchanged, no stop call issued). -/
theorem bt_off_cleanup (s : CState) (st : AdapterState)
    (hst : st ≠ AdapterState.PoweredOn) :
    (btStateChange st s).connectedDevice = none ∧
    (btStateChange st s).deviceRef = none ∧
    (btStateChange st s).isScanning = false ∧
    (btStateChange st s).permissionsGranted = false ∧
    (btStateChange st s).foundDevices = [] ∧
    (btStateChange st s).scanActive = s.scanActive ∧
    (btStateChange st s).stopScanCount = s.stopScanCount ∧
    (s.deviceRef ≠ none → (btStateChange st s).cancelCalls = s.cancelCalls + 1) := by
  simp only [btStateChange, if_neg hst]
  cases hd : s.deviceRef <;> simp [hd]

/-- C4 witness: `bt_off_cleanup` applied to the concrete Ready session and
the `PoweredOff` transition. -/
theorem bt_off_cleanup_witness :
    (btStateChange AdapterState.PoweredOff readyState).connectedDevice = none ∧
    (btStateChange AdapterState.PoweredOff readyState).deviceRef = none ∧
    (btStateChange AdapterState.PoweredOff readyState).cancelCalls =
      readyState.cancelCalls + 1 := by
  obtain ⟨h1, h2, _, _, _, _, _, h8⟩ :=
    bt_off_cleanup readyState AdapterState.PoweredOff (by decide)
  exact ⟨h1, h2, h8 (by decide)⟩

/-! ## C6 — send/read guarded by the device references, not by Ready -/

/-- The Disconnecting window in which `cancelConnection` has resolved but the
`onDisconnected` listener has not yet fired: `handleDisconnect`'s `finally`
(ble.tsx 244-246) has cleared the busy flag while both `connectedDevice` and
`deviceRef` are still set. -/
def disconnectingWindowState : CState :=
  step Event.disconnectOk (step Event.userDisconnect readyState)

/-- C6 counterexample: the claim says send and read called outside Ready fail
with NotConnected and perform no characteristic I/O.  In the reachable
Disconnecting window above — not Ready — the send and read buttons are still
rendered and enabled (`connectedDevice` set, `isConnecting` false, ble.tsx
309, 339, 342), and a press passes the both-refs guard: a characteristic
write/read is issued (one transport attempt each) and no NotConnected error
is raised. -/
theorem send_io_in_disconnecting_window :
    disconnectingWindowState.phase = Phase.Disconnecting ∧
    disconnectingWindowState.phase ≠ Phase.Ready ∧
    (step (Event.sendPress true) disconnectingWindowState).writeCount
      = disconnectingWindowState.writeCount + 1 ∧
    (step (Event.sendPress true) disconnectingWindowState).lastError ≠
      some BleError.NotConnected ∧
    (step (Event.readPress (some "v")) disconnectingWindowState).readCount
      = disconnectingWindowState.readCount + 1 := by
  refine ⟨rfl, by decide, rfl, by decide, rfl⟩

/-- C6 amended: `sendData` and `readCharacteristicData` are guarded by the
device references, not by Ready itself.  When `deviceRef` or
`connectedDevice` is null they fail with the not-connected error and perform
no characteristic I/O (state otherwise unchanged).  Whenever both are
non-null — in Ready, and also in the Disconnecting window after an
acknowledged `cancelConnection` before the `onDisconnected` listener clears
the references — each call performs exactly one transport attempt and,
whatever the outcome, leaves `connectedDevice`, `deviceRef`, the phase and
the busy flag untouched, so the caller may retry. -/
theorem send_read_ready_discipline (s : CState) (ok : Bool) (outcome : Option String) :
    ((s.deviceRef = none ∨ s.connectedDevice = none) →
      sendData ok s = { s with lastError := some BleError.NotConnected } ∧
      readData outcome s = { s with lastError := some BleError.NotConnected }) ∧
    (s.deviceRef ≠ none → s.connectedDevice ≠ none →
      (sendData ok s).writeCount = s.writeCount + 1 ∧
      (sendData ok s).readCount = s.readCount ∧
      (sendData ok s).connectedDevice = s.connectedDevice ∧
      (sendData ok s).deviceRef = s.deviceRef ∧
      (sendData ok s).phase = s.phase ∧
      (sendData ok s).isConnecting = s.isConnecting ∧
      (readData outcome s).readCount = s.readCount + 1 ∧
      (readData outcome s).writeCount = s.writeCount ∧
      (readData outcome s).connectedDevice = s.connectedDevice ∧
      (readData outcome s).deviceRef = s.deviceRef ∧
      (readData outcome s).phase = s.phase ∧
      (readData outcome s).isConnecting = s.isConnecting) := by
  constructor
  · intro h
    constructor <;> simp [sendData, readData, h]
  · intro h1 h2
    have hg : ¬ (s.deviceRef = none ∨ s.connectedDevice = none) := by
      rintro (h | h) <;> simp_all
    cases ok <;> cases outcome <;>
      simp [sendData, readData, hg]

/-- C6 witness: at the initial (not connected) state the send call fails with
`NotConnected`; at the concrete Ready state it performs exactly one write. -/
theorem send_read_ready_discipline_witness :
    sendData true initState = { initState with lastError := some BleError.NotConnected } ∧
    (sendData true readyState).writeCount = readyState.writeCount + 1 := by
  refine ⟨((send_read_ready_discipline initState true none).1 (Or.inl rfl)).1, ?_⟩
  exact ((send_read_ready_discipline readyState true none).2 (by decide) (by decide)).1

/-! ## C7 — user disconnect always terminal -/

/-- C7: from a session with a device reference (and the disconnect
subscription of a live connection), a user-initiated disconnect ends with the
session Disconnected on every settlement path: if `cancelConnection` rejects,
the catch block itself clears `connectedDevice`, `deviceRef` and the
subscription; if it resolves, the `onDisconnected` listener (firing after or
before the resolution) performs the cleanup.  In no path is the session left
stuck in `Disconnecting`. -/
theorem user_disconnect_terminal (s : CState) (d : Device) (n : Nat)
    (h1 : s.deviceRef = some d) (h2 : s.isConnecting = false)
    (h3 : s.disconnectSub = some n) (h4 : s.pending = none) :
    ((step Event.disconnectFail (step Event.userDisconnect s)).phase = Phase.Disconnected ∧
     (step Event.disconnectFail (step Event.userDisconnect s)).connectedDevice = none ∧
     (step Event.disconnectFail (step Event.userDisconnect s)).deviceRef = none ∧
     (step Event.disconnectFail (step Event.userDisconnect s)).disconnectSub = none ∧
     (step Event.disconnectFail (step Event.userDisconnect s)).isConnecting = false) ∧
    ((step Event.unsolicited (step Event.disconnectOk (step Event.userDisconnect s))).phase
        = Phase.Disconnected ∧
     (step Event.unsolicited (step Event.disconnectOk
        (step Event.userDisconnect s))).connectedDevice = none ∧
     (step Event.unsolicited (step Event.disconnectOk
        (step Event.userDisconnect s))).deviceRef = none ∧
     (step Event.unsolicited (step Event.disconnectOk
        (step Event.userDisconnect s))).disconnectSub = none ∧
     (step Event.unsolicited (step Event.disconnectOk
        (step Event.userDisconnect s))).isConnecting = false) ∧
    ((step Event.disconnectOk (step Event.unsolicited (step Event.userDisconnect s))).phase
        = Phase.Disconnected ∧
     (step Event.disconnectOk (step Event.unsolicited
        (step Event.userDisconnect s))).connectedDevice = none ∧
     (step Event.disconnectOk (step Event.unsolicited
        (step Event.userDisconnect s))).deviceRef = none ∧
     (step Event.disconnectOk (step Event.unsolicited
        (step Event.userDisconnect s))).disconnectSub = none ∧
     (step Event.disconnectOk (step Event.unsolicited
        (step Event.userDisconnect s))).isConnecting = false) := by
  simp [step, disconnectBegin, disconnectOkStep, disconnectFailStep, onDisconnectedFire,
        h1, h2, h3, h4]

/-- C7 witness: `user_disconnect_terminal` at the concrete Ready session. -/
theorem user_disconnect_terminal_witness :
    (step Event.disconnectFail (step Event.userDisconnect readyState)).phase
      = Phase.Disconnected ∧
    (step Event.disconnectFail (step Event.userDisconnect readyState)).deviceRef = none := by
  obtain ⟨⟨p1, _, p3, _, _⟩, _, _⟩ :=
    user_disconnect_terminal readyState devEx 0 (by decide) (by decide) (by decide) (by decide)
  exact ⟨p1, p3⟩

/-! ## C8 — unsolicited disconnect idempotent, subscription released once -/

/-- C8: the `onDisconnected` handler is idempotent — applying it to the
already-cleaned state changes nothing (the self-removal of the subscription
is guarded by the ref still being present), and a second platform
notification on a session whose subscription is gone is a no-op.  In every
interleaving of a user-initiated disconnect with an unsolicited disconnect
notification, the owning subscription handle is removed exactly once and the
session ends Disconnected. -/
theorem unsolicited_disconnect_idempotent (s : CState) (d e : Device) (n : Nat)
    (h1 : s.deviceRef = some d) (h2 : s.connectedDevice = some e)
    (h3 : s.disconnectSub = some n) (h4 : s.pending = none)
    (h5 : s.isConnecting = false) :
    onDisconnectedFire (onDisconnectedFire s) = onDisconnectedFire s ∧
    step Event.unsolicited (step Event.unsolicited s) = step Event.unsolicited s ∧
    ((step Event.unsolicited s).subRemoveCount = s.subRemoveCount + 1 ∧
     (step Event.unsolicited s).disconnectSub = none ∧
     (step Event.unsolicited s).phase = Phase.Disconnected) ∧
    ((step Event.unsolicited (step Event.disconnectOk
        (step Event.userDisconnect s))).subRemoveCount = s.subRemoveCount + 1 ∧
     (step Event.unsolicited (step Event.disconnectOk
        (step Event.userDisconnect s))).disconnectSub = none ∧
     (step Event.unsolicited (step Event.disconnectOk
        (step Event.userDisconnect s))).phase = Phase.Disconnected) ∧
    ((step Event.disconnectOk (step Event.unsolicited
        (step Event.userDisconnect s))).subRemoveCount = s.subRemoveCount + 1 ∧
     (step Event.disconnectOk (step Event.unsolicited
        (step Event.userDisconnect s))).disconnectSub = none ∧
     (step Event.disconnectOk (step Event.unsolicited
        (step Event.userDisconnect s))).phase = Phase.Disconnected) ∧
    ((step Event.unsolicited (step Event.disconnectFail
        (step Event.userDisconnect s))).subRemoveCount = s.subRemoveCount + 1 ∧
     (step Event.unsolicited (step Event.disconnectFail
        (step Event.userDisconnect s))).disconnectSub = none ∧
     (step Event.unsolicited (step Event.disconnectFail
        (step Event.userDisconnect s))).phase = Phase.Disconnected) ∧
    ((step Event.disconnectFail (step Event.unsolicited
        (step Event.userDisconnect s))).subRemoveCount = s.subRemoveCount + 1 ∧
     (step Event.disconnectFail (step Event.unsolicited
        (step Event.userDisconnect s))).disconnectSub = none ∧
     (step Event.disconnectFail (step Event.unsolicited
        (step Event.userDisconnect s))).phase = Phase.Disconnected) := by
  simp [step, disconnectBegin, disconnectOkStep, disconnectFailStep, onDisconnectedFire,
        h1, h2, h3, h4, h5]

/-- C8 witness: `unsolicited_disconnect_idempotent` at the concrete Ready
session. -/
theorem unsolicited_disconnect_idempotent_witness :
    step Event.unsolicited (step Event.unsolicited readyState)
      = step Event.unsolicited readyState ∧
    (step Event.unsolicited readyState).subRemoveCount = readyState.subRemoveCount + 1 := by
  obtain ⟨_, q2, ⟨q3, _, _⟩, _⟩ :=
    unsolicited_disconnect_idempotent readyState devEx devEx 0
      (by decide) (by decide) (by decide) (by decide) (by decide)
  exact ⟨q2, q3⟩

/-! ## C10 — in-flight connection guard on send/read -/

/-- C10: while a connection attempt is in flight (`deviceRef` set,
`connectedDevice` still null) both `sendData` and `readCharacteristicData`
reject with the not-connected error and issue no characteristic I/O: the
guard requires both references to be non-null before any write or read is
attempted. -/
theorem inflight_send_read_rejected (s : CState) (ok : Bool) (outcome : Option String)
    (d : Device) (h1 : s.deviceRef = some d) (h2 : s.connectedDevice = none) :
    sendData ok s = { s with lastError := some BleError.NotConnected } ∧
    readData outcome s = { s with lastError := some BleError.NotConnected } ∧
    (sendData ok s).writeCount = s.writeCount ∧
    (readData outcome s).readCount = s.readCount := by
  have h : s.deviceRef = none ∨ s.connectedDevice = none := Or.inr h2
  obtain ⟨hs, hr⟩ := (send_read_ready_discipline s ok outcome).1 h
  exact ⟨hs, hr, by rw [hs], by rw [hr]⟩

/-- C10 witness: `inflight_send_read_rejected` at the concrete in-flight
connection state reached by tapping `devEx` during the scan. -/
theorem inflight_send_read_rejected_witness :
    sendData true connectingState
      = { connectingState with lastError := some BleError.NotConnected } ∧
    (sendData true connectingState).writeCount = connectingState.writeCount := by
  obtain ⟨w1, _, w3, _⟩ :=
    inflight_send_read_rejected connectingState true none devEx (by decide) (by decide)
  exact ⟨w1, w3⟩

/-! ## Wire encoding (C5)

The client encodes `Buffer.from(dataToSend, 'utf8').toString('base64')`
(ble.tsx 259) and hands the base64 text to the characteristic write; the
transport layer (react-native-ble-plx, spec §6 "applied only at the
characteristic I/O boundary") decodes the base64 back to the raw bytes it
puts on the air; the peripheral's `onWriteRequest` receives those bytes and
decodes `data.toString('utf8')` (part_000 line 39).

Bytes are `Nat`s below 256, scalar values `Nat`s below 0x110000.  The
base64 encoder/decoder implement RFC 4648 with `=` padding (the semantics of
Node's `Buffer` base64, named by the spec as the standard binary-safe text
encoding); the UTF-8 encoder/decoder implement the standard leading-byte /
continuation-byte scheme. -/

/-- The base64 alphabet, RFC 4648 order. -/
def b64Alphabet : List Char :=
  ['A', 'B', 'C', 'D', 'E', 'F', 'G', 'H', 'I', 'J', 'K', 'L', 'M',
   'N', 'O', 'P', 'Q', 'R', 'S', 'T', 'U', 'V', 'W', 'X', 'Y', 'Z',
   'a', 'b', 'c', 'd', 'e', 'f', 'g', 'h', 'i', 'j', 'k', 'l', 'm',
   'n', 'o', 'p', 'q', 'r', 's', 't', 'u', 'v', 'w', 'x', 'y', 'z',
   '0', '1', '2', '3', '4', '5', '6', '7', '8', '9', '+', '/']

/-- Sextet value to base64 character. -/
def b64Char (n : Nat) : Char := b64Alphabet.getD n '='

/-- Base64 character back to its sextet value. -/
def b64Index (c : Char) : Nat := b64Alphabet.indexOf c

/-- Base64-encode a byte list, three bytes to four characters, `=`-padded. -/
def b64Encode : List Nat → List Char
  | [] => []
  | [b1] => [b64Char (b1 / 4), b64Char (b1 % 4 * 16), '=', '=']
  | [b1, b2] => [b64Char (b1 / 4), b64Char (b1 % 4 * 16 + b2 / 16),
                 b64Char (b2 % 16 * 4), '=']
  | b1 :: b2 :: b3 :: rest =>
      b64Char (b1 / 4) :: b64Char (b1 % 4 * 16 + b2 / 16) ::
      b64Char (b2 % 16 * 4 + b3 / 64) :: b64Char (b3 % 64) :: b64Encode rest

/-- Base64-decode four characters at a time, honouring `=` padding. -/
def b64Decode : List Char → List Nat
  | c1 :: c2 :: c3 :: c4 :: rest =>
      if c3 = '=' then [b64Index c1 * 4 + b64Index c2 / 16]
      else if c4 = '=' then
        [b64Index c1 * 4 + b64Index c2 / 16,
         b64Index c2 % 16 * 16 + b64Index c3 / 4]
      else
        (b64Index c1 * 4 + b64Index c2 / 16) ::
        (b64Index c2 % 16 * 16 + b64Index c3 / 4) ::
        (b64Index c3 % 4 * 64 + b64Index c4) :: b64Decode rest
  | _ => []

/-- UTF-8-encode one scalar value. -/
def utf8EncodeScalar (n : Nat) : List Nat :=
  if n < 128 then [n]
  else if n < 2048 then [192 + n / 64, 128 + n % 64]
  else if n < 65536 then [224 + n / 4096, 128 + n / 64 % 64, 128 + n % 64]
  else [240 + n / 262144, 128 + n / 4096 % 64, 128 + n / 64 % 64, 128 + n % 64]

/-- UTF-8-encode a scalar list. -/
def utf8Encode : List Nat → List Nat
  | [] => []
  | c :: rest => utf8EncodeScalar c ++ utf8Encode rest

/-- Byte-at-a-time UTF-8 decoding.  `need` is the number of continuation
bytes still expected for the current scalar, `acc` the scalar bits
accumulated so far.  A leading byte selects the width from its high bits
(0xxxxxxx / 110xxxxx / 1110xxxx / 11110xxx); every continuation byte must be
10xxxxxx; anything else is malformed (`none`). -/
def utf8DecodeAux : List Nat → Nat → Nat → Option (List Nat)
  | [], need, _ => if need = 0 then some [] else none
  | b :: rest, 0, _ =>
      if b < 128 then (utf8DecodeAux rest 0 0).map (fun l => b :: l)
      else if b < 192 then none
      else if b < 224 then utf8DecodeAux rest 1 (b - 192)
      else if b < 240 then utf8DecodeAux rest 2 (b - 224)
      else if b < 248 then utf8DecodeAux rest 3 (b - 240)
      else none
  | b :: rest, 1, acc =>
      if 128 ≤ b ∧ b < 192 then
        (utf8DecodeAux rest 0 0).map (fun l => (acc * 64 + (b - 128)) :: l)
      else none
  | b :: rest, need + 2, acc =>
      if 128 ≤ b ∧ b < 192 then utf8DecodeAux rest (need + 1) (acc * 64 + (b - 128))
      else none

/-- UTF-8-decode a byte list to scalar values; `none` on a malformed
sequence. -/
def utf8Decode (l : List Nat) : Option (List Nat) := utf8DecodeAux l 0 0

/-- The scalar values of a string. -/
def strScalars (s : String) : List Nat := s.data.map Char.toNat

/-- Client-side encoding of `sendData`, ble.tsx 259:
`Buffer.from(payload, 'utf8').toString('base64')`. -/
def sendDataEncode (payload : String) : List Char :=
  b64Encode (utf8Encode (strScalars payload))

/-- Peripheral-side decode of `onWriteRequest`, part_000 line 39:
`data.toString('utf8')` on the received bytes, as scalar values. -/
def onWriteRequestDecode (data : List Nat) : Option (List Nat) :=
  utf8Decode data

/-- Decoding a base64 character of the alphabet recovers its sextet. -/
theorem b64_index_char : ∀ n < 64, b64Index (b64Char n) = n := by decide

/-- Alphabet characters are never the padding character. -/
theorem b64_char_ne_pad : ∀ n < 64, b64Char n ≠ '=' := by decide

theorem b64Encode_one (b1 : Nat) :
    b64Encode [b1] = [b64Char (b1 / 4), b64Char (b1 % 4 * 16), '=', '='] := rfl

theorem b64Encode_two (b1 b2 : Nat) :
    b64Encode [b1, b2] = [b64Char (b1 / 4), b64Char (b1 % 4 * 16 + b2 / 16),
                          b64Char (b2 % 16 * 4), '='] := rfl

theorem b64Encode_cons3 (b1 b2 b3 : Nat) (rest : List Nat) :
    b64Encode (b1 :: b2 :: b3 :: rest) =
      b64Char (b1 / 4) :: b64Char (b1 % 4 * 16 + b2 / 16) ::
      b64Char (b2 % 16 * 4 + b3 / 64) :: b64Char (b3 % 64) :: b64Encode rest := rfl

theorem b64Decode_cons (c1 c2 c3 c4 : Char) (rest : List Char) :
    b64Decode (c1 :: c2 :: c3 :: c4 :: rest) =
      if c3 = '=' then [b64Index c1 * 4 + b64Index c2 / 16]
      else if c4 = '=' then
        [b64Index c1 * 4 + b64Index c2 / 16,
         b64Index c2 % 16 * 16 + b64Index c3 / 4]
      else
        (b64Index c1 * 4 + b64Index c2 / 16) ::
        (b64Index c2 % 16 * 16 + b64Index c3 / 4) ::
        (b64Index c3 % 4 * 64 + b64Index c4) :: b64Decode rest := rfl

/-- Base64 round-trip on byte lists. -/
theorem b64_decode_encode : ∀ l : List Nat, (∀ b ∈ l, b < 256) →
    b64Decode (b64Encode l) = l
  | [], _ => rfl
  | [b1], h => by
      have hb1 : b1 < 256 := h b1 (by simp)
      rw [b64Encode_one, b64Decode_cons, if_pos rfl,
          b64_index_char (b1 / 4) (by omega), b64_index_char (b1 % 4 * 16) (by omega)]
      simp only [List.cons.injEq, and_true]
      omega
  | [b1, b2], h => by
      have hb1 : b1 < 256 := h b1 (by simp)
      have hb2 : b2 < 256 := h b2 (by simp)
      rw [b64Encode_two, b64Decode_cons,
          if_neg (b64_char_ne_pad (b2 % 16 * 4) (by omega)), if_pos rfl,
          b64_index_char (b1 / 4) (by omega),
          b64_index_char (b1 % 4 * 16 + b2 / 16) (by omega),
          b64_index_char (b2 % 16 * 4) (by omega)]
      simp only [List.cons.injEq, and_true]
      constructor <;> omega
  | b1 :: b2 :: b3 :: rest, h => by
      have hb1 : b1 < 256 := h b1 (by simp)
      have hb2 : b2 < 256 := h b2 (by simp)
      have hb3 : b3 < 256 := h b3 (by simp)
      have ih := b64_decode_encode rest (fun b hb => h b (by simp [hb]))
      rw [b64Encode_cons3, b64Decode_cons,
          if_neg (b64_char_ne_pad (b2 % 16 * 4 + b3 / 64) (by omega)),
          if_neg (b64_char_ne_pad (b3 % 64) (by omega)),
          b64_index_char (b1 / 4) (by omega),
          b64_index_char (b1 % 4 * 16 + b2 / 16) (by omega),
          b64_index_char (b2 % 16 * 4 + b3 / 64) (by omega),
          b64_index_char (b3 % 64) (by omega), ih]
      simp only [List.cons.injEq]
      refine ⟨by omega, by omega, by omega, trivial⟩

/-- Every byte of the UTF-8 encoding of a valid scalar is a byte. -/
theorem utf8EncodeScalar_bytes_lt (n : Nat) (hn : n < 1114112) :
    ∀ b ∈ utf8EncodeScalar n, b < 256 := by
  intro b hb
  unfold utf8EncodeScalar at hb
  split_ifs at hb with h1 h2 h3
  · simp at hb; omega
  · simp at hb; rcases hb with rfl | rfl <;> omega
  · simp at hb; rcases hb with rfl | rfl | rfl <;> omega
  · simp at hb; rcases hb with rfl | rfl | rfl | rfl <;> omega

/-- Every byte of the UTF-8 encoding of valid scalars is a byte. -/
theorem utf8Encode_bytes_lt (l : List Nat) (h : ∀ n ∈ l, n < 1114112) :
    ∀ b ∈ utf8Encode l, b < 256 := by
  induction l with
  | nil => intro b hb; simp [utf8Encode] at hb
  | cons c rest ih =>
      intro b hb
      simp only [utf8Encode, List.mem_append] at hb
      rcases hb with hb | hb
      · exact utf8EncodeScalar_bytes_lt c (h c (by simp)) b hb
      · exact ih (fun n hn => h n (by simp [hn])) b hb

/-- Decoding the UTF-8 encoding of one valid scalar prefixed to any byte
list recovers the scalar. -/
theorem utf8_decode_scalar_cons (n : Nat) (hn : n < 1114112) (bs : List Nat) :
    utf8Decode (utf8EncodeScalar n ++ bs) = (utf8Decode bs).map (fun l => n :: l) := by
  unfold utf8Decode
  by_cases h1 : n < 128
  · rw [show utf8EncodeScalar n = [n] from by simp [utf8EncodeScalar, h1]]
    simp only [List.cons_append, List.nil_append]
    simp only [utf8DecodeAux, h1, if_true, ite_true]
  · by_cases h2 : n < 2048
    · rw [show utf8EncodeScalar n = [192 + n / 64, 128 + n % 64] from by
        simp [utf8EncodeScalar, h1, h2]]
      simp only [List.cons_append, List.nil_append]
      have c1 : ¬ (192 + n / 64 < 128) := by omega
      have c2 : ¬ (192 + n / 64 < 192) := by omega
      have c3 : 192 + n / 64 < 224 := by omega
      have c4 : 128 ≤ 128 + n % 64 := by omega
      have c5 : 128 + n % 64 < 192 := by omega
      simp only [utf8DecodeAux, c1, c2, c3, c4, c5, and_self, and_true, true_and,
                 if_true, if_false, ite_true, ite_false]
      have hv : (192 + n / 64 - 192) * 64 + (128 + n % 64 - 128) = n := by omega
      rw [hv]
    · by_cases h3 : n < 65536
      · rw [show utf8EncodeScalar n = [224 + n / 4096, 128 + n / 64 % 64, 128 + n % 64] from by
          simp [utf8EncodeScalar, h1, h2, h3]]
        simp only [List.cons_append, List.nil_append]
        have c1 : ¬ (224 + n / 4096 < 128) := by omega
        have c2 : ¬ (224 + n / 4096 < 192) := by omega
        have c3 : ¬ (224 + n / 4096 < 224) := by omega
        have c4 : 224 + n / 4096 < 240 := by omega
        have c5 : 128 ≤ 128 + n / 64 % 64 := by omega
        have c6 : 128 + n / 64 % 64 < 192 := by omega
        have c7 : 128 ≤ 128 + n % 64 := by omega
        have c8 : 128 + n % 64 < 192 := by omega
        simp only [utf8DecodeAux, c1, c2, c3, c4, c5, c6, c7, c8, and_self, and_true,
                   true_and, if_true, if_false, ite_true, ite_false]
        have hv : ((224 + n / 4096 - 224) * 64 + (128 + n / 64 % 64 - 128)) * 64
            + (128 + n % 64 - 128) = n := by omega
        rw [hv]
      · rw [show utf8EncodeScalar n
              = [240 + n / 262144, 128 + n / 4096 % 64, 128 + n / 64 % 64, 128 + n % 64] from by
            simp [utf8EncodeScalar, h1, h2, h3]]
        simp only [List.cons_append, List.nil_append]
        have c1 : ¬ (240 + n / 262144 < 128) := by omega
        have c2 : ¬ (240 + n / 262144 < 192) := by omega
        have c3 : ¬ (240 + n / 262144 < 224) := by omega
        have c4 : ¬ (240 + n / 262144 < 240) := by omega
        have c5 : 240 + n / 262144 < 248 := by omega
        have c6 : 128 ≤ 128 + n / 4096 % 64 := by omega
        have c7 : 128 + n / 4096 % 64 < 192 := by omega
        have c8 : 128 ≤ 128 + n / 64 % 64 := by omega
        have c9 : 128 + n / 64 % 64 < 192 := by omega
        have c10 : 128 ≤ 128 + n % 64 := by omega
        have c11 : 128 + n % 64 < 192 := by omega
        simp only [utf8DecodeAux, c1, c2, c3, c4, c5, c6, c7, c8, c9, c10, c11, and_self,
                   and_true, true_and, if_true, if_false, ite_true, ite_false]
        have hv : (((240 + n / 262144 - 240) * 64 + (128 + n / 4096 % 64 - 128)) * 64
            + (128 + n / 64 % 64 - 128)) * 64 + (128 + n % 64 - 128) = n := by omega
        rw [hv]

/-- UTF-8 round-trip on valid scalar lists. -/
theorem utf8_decode_encode (l : List Nat) (h : ∀ n ∈ l, n < 1114112) :
    utf8Decode (utf8Encode l) = some l := by
  induction l with
  | nil => rfl
  | cons c rest ih =>
      rw [show utf8Encode (c :: rest) = utf8EncodeScalar c ++ utf8Encode rest from rfl,
          utf8_decode_scalar_cons c (h c (by simp)) (utf8Encode rest),
          ih (fun n hn => h n (by simp [hn]))]
      rfl

/-- Every `Char` carries a valid Unicode scalar value. -/
theorem char_toNat_lt_limit (c : Char) : c.toNat < 1114112 := by
  have h : c.val.toNat < 55296 ∨ (57343 < c.val.toNat ∧ c.val.toNat < 1114112) := c.valid
  have he : c.toNat = c.val.toNat := rfl
  rw [he]
  omega

/-! ## C5 — send/write-handler round-trip -/

/-- C5: for every UTF-8 string payload, the client-side encode of `sendData`
(UTF-8 bytes, then base64 at the characteristic write boundary), the
transport's base64 decode, and the peripheral write handler's UTF-8 decode
recover exactly the original payload's scalar values. -/
theorem send_write_roundtrip (payload : String) :
    onWriteRequestDecode (b64Decode (sendDataEncode payload))
      = some (strScalars payload) := by
  have hscal : ∀ n ∈ strScalars payload, n < 1114112 := by
    intro n hn
    simp only [strScalars, List.mem_map] at hn
    obtain ⟨c, _, rfl⟩ := hn
    exact char_toNat_lt_limit c
  show utf8Decode (b64Decode (b64Encode (utf8Encode (strScalars payload))))
      = some (strScalars payload)
  rw [b64_decode_encode (utf8Encode (strScalars payload))
        (utf8Encode_bytes_lt (strScalars payload) hscal)]
  exact utf8_decode_encode (strScalars payload) hscal

/-! ## C9 — target reference iff lifecycle phase -/

/-- The connection-lifecycle phases of spec §3's invariant: the session owns
a target exactly in these phases. -/
def lifecyclePhase (p : Phase) : Prop :=
  p = Phase.Connecting ∨ p = Phase.Discovering ∨ p = Phase.Ready ∨ p = Phase.Disconnecting

/-- Inductive invariant of the session state machine.  The first conjunct is
the spec's invariant (C9); the rest strengthen it enough to be preserved by
every event: what an alive pending connect/discover implies, which phases are
busy, which phases hold a connected device, that a cancelled in-flight
call's device ref is already cleared, and that every armed scan timer
captured `isScanning = false`. -/
def Inv (s : CState) : Prop :=
  (s.deviceRef ≠ none ↔ lifecyclePhase s.phase) ∧
  (∀ d, s.pending = some (Pending.connect d) → s.pendingCancelled = false →
    s.deviceRef = some d ∧ s.phase = Phase.Connecting) ∧
  (∀ d, s.pending = some (Pending.discover d) → s.pendingCancelled = false →
    s.deviceRef = some d ∧ s.phase = Phase.Discovering) ∧
  (s.phase = Phase.Connecting ∨ s.phase = Phase.Discovering → s.isConnecting = true) ∧
  (s.phase = Phase.Ready → s.connectedDevice ≠ none) ∧
  (s.phase = Phase.Disconnecting → s.connectedDevice ≠ none ∧ s.deviceRef ≠ none) ∧
  (∀ d, s.pendingCancelled = true →
    (s.pending = some (Pending.connect d) ∨ s.pending = some (Pending.discover d)) →
    s.deviceRef = none) ∧
  (∀ d, s.pending = some (Pending.connect d) ∨ s.pending = some (Pending.discover d) →
    s.isConnecting = true) ∧
  (s.pending = some Pending.disconnect → s.isConnecting = true) ∧
  (s.pending = some Pending.disconnect →
    s.phase = Phase.Disconnecting ∨ s.phase = Phase.Disconnected) ∧
  (∀ c ∈ s.timers, c = false)

/-- The initial component state satisfies the invariant. -/
theorem Inv_init : Inv initState := by
  simp [Inv, initState, lifecyclePhase]

set_option maxHeartbeats 1600000 in
/-- Every serialised event preserves the invariant. -/
theorem Inv_step (e : Event) (s : CState) (h : Inv s) : Inv (step e s) := by
  obtain ⟨sc, fd, cd, ic, pg, bt, dr, ds, ns, pd, pc, tm, sa, ph, le, rd, src, ssc, cc, wc, rc⟩ := s
  simp only [Inv] at h ⊢
  obtain ⟨I1, I2, I3, I4, I5, I6, I7, I8, I9, I10, I11⟩ := h
  cases e with
  | btState st =>
      by_cases hOn : st = AdapterState.PoweredOn
      · simp only [step, btStateChange, if_pos hOn]
        exact ⟨I1, I2, I3, I4, I5, I6, I7, I8, I9, I10, I11⟩
      · simp only [step, btStateChange, if_neg hOn]

        cases dr with
        | none =>
            simp_all [lifecyclePhase]
            obtain ⟨n1, n2, n3, n4⟩ := I1
            by_cases hph : ph = Phase.Scanning <;> simp_all <;> exact I8
        | some r =>
            simp_all [lifecyclePhase]
            exact I8
  | permResult g =>
      simp only [step]
      exact ⟨I1, I2, I3, I4, I5, I6, I7, I8, I9, I10, I11⟩
  | scanPress =>
      simp only [step, startScan]
      split_ifs with h1 h2 h3 h4 h5 <;> simp_all [lifecyclePhase] <;> exact I7
  | found d =>
      simp only [step, foundStep]
      split_ifs <;>
        exact ⟨I1, I2, I3, I4, I5, I6, I7, I8, I9, I10, I11⟩
  | scanFail =>
      simp only [step, scanErrorStep]
      by_cases h1 : sa = true
      · simp only [if_pos h1]
        by_cases hph : ph = Phase.Scanning
        · simp_all [lifecyclePhase]
          exact I8
        · simp only [if_neg hph]
          exact ⟨I1, I2, I3, I4, I5, I6, I7, I8, I9, I10, I11⟩
      · simp only [if_neg h1]
        exact ⟨I1, I2, I3, I4, I5, I6, I7, I8, I9, I10, I11⟩
  | scanTimeout =>
      cases tm with
      | nil => exact ⟨I1, I2, I3, I4, I5, I6, I7, I8, I9, I10, I11⟩
      | cons c rest =>
          have hc : c = false := I11 c (by simp)
          subst hc
          refine ⟨I1, I2, I3, I4, I5, I6, I7, I8, I9, I10, ?_⟩
          intro x hx
          exact I11 x (List.mem_cons_of_mem _ hx)
  | tapConnect d =>
      simp only [step, connectBegin]
      by_cases hmem : d ∈ fd
      · rw [if_pos hmem]
        by_cases hic : ic = true
        · rw [if_pos hic]
          exact ⟨I1, I2, I3, I4, I5, I6, I7, I8, I9, I10, I11⟩
        · rw [if_neg hic]
          by_cases hcd : cd ≠ none
          · rw [if_pos hcd]
            exact ⟨I1, I2, I3, I4, I5, I6, I7, I8, I9, I10, I11⟩
          · rw [if_neg hcd]
            refine ⟨?_, ?_, ?_, ?_, ?_, ?_, ?_, ?_, ?_, ?_, I11⟩
            · simp [lifecyclePhase]
            · intro d2 h hpc2
              simp only [Option.some.injEq, Pending.connect.injEq] at h
              subst h
              exact ⟨rfl, rfl⟩
            · intro d2 h hpc2
              simp at h
            · intro _
              rfl
            · intro h5
              simp at h5
            · intro h6
              simp at h6
            · intro d2 hpc2
              simp at hpc2
            · intro d2 h8
              rfl
            · intro h9
              simp at h9
            · intro h10
              simp at h10
      · rw [if_neg hmem]
        exact ⟨I1, I2, I3, I4, I5, I6, I7, I8, I9, I10, I11⟩
  | connectOk =>
      cases pd with
      | none => exact ⟨I1, I2, I3, I4, I5, I6, I7, I8, I9, I10, I11⟩
      | some p =>
          cases p with
          | connect d =>
              simp only [step, connectOkStep]
              by_cases hpc : pc = true
              · rw [if_pos hpc]
                exact ⟨I1, I2, I3, I4, I5, I6, I7, I8, I9, I10, I11⟩
              · rw [if_neg hpc]
                have hpc2 : pc = false := by simpa using hpc
                obtain ⟨hdr, hph⟩ := I2 d rfl hpc2
                subst hdr
                subst hph
                refine ⟨?_, ?_, ?_, ?_, ?_, ?_, ?_, ?_, ?_, ?_, I11⟩
                · simp [lifecyclePhase]
                · intro d2 h h2
                  simp at h
                · intro d2 h h2
                  simp only [Option.some.injEq, Pending.discover.injEq] at h
                  subst h
                  exact ⟨rfl, rfl⟩
                · intro _
                  exact I4 (Or.inl rfl)
                · intro h5
                  simp at h5
                · intro h6
                  simp at h6
                · intro d2 h7
                  exact absurd h7 hpc
                · intro d2 h8
                  exact I4 (Or.inl rfl)
                · intro h9
                  simp at h9
                · intro h10
                  simp at h10
          | discover d => exact ⟨I1, I2, I3, I4, I5, I6, I7, I8, I9, I10, I11⟩
          | disconnect => exact ⟨I1, I2, I3, I4, I5, I6, I7, I8, I9, I10, I11⟩
  | discoverOk =>
      cases pd with
      | none => exact ⟨I1, I2, I3, I4, I5, I6, I7, I8, I9, I10, I11⟩
      | some p =>
          cases p with
          | connect d => exact ⟨I1, I2, I3, I4, I5, I6, I7, I8, I9, I10, I11⟩
          | disconnect => exact ⟨I1, I2, I3, I4, I5, I6, I7, I8, I9, I10, I11⟩
          | discover d =>
              simp only [step, discoverOkStep]
              by_cases hpc : pc = true
              · rw [if_pos hpc]
                exact ⟨I1, I2, I3, I4, I5, I6, I7, I8, I9, I10, I11⟩
              · rw [if_neg hpc]
                have hpc2 : pc = false := by simpa using hpc
                obtain ⟨hdr, hph⟩ := I3 d rfl hpc2
                subst hdr
                subst hph
                refine ⟨?_, ?_, ?_, ?_, ?_, ?_, ?_, ?_, ?_, ?_, I11⟩
                · simp [lifecyclePhase]
                · intro d2 h h2
                  simp at h
                · intro d2 h h2
                  simp at h
                · intro h4
                  simp at h4
                · intro _
                  simp
                · intro h6
                  simp at h6
                · intro d2 hpc3 h
                  simp at h
                · intro d2 h8
                  simp at h8
                · intro h9
                  simp at h9
                · intro h10
                  simp at h10
  | connectFail =>
      cases pd with
      | none => exact ⟨I1, I2, I3, I4, I5, I6, I7, I8, I9, I10, I11⟩
      | some p =>
          cases p with
          | disconnect => exact ⟨I1, I2, I3, I4, I5, I6, I7, I8, I9, I10, I11⟩
          | connect d =>
              simp only [step, connectFailStep, connectCatch]
              have hdr2 : (match dr with
                  | some r => if r.id = d.id then none else some r
                  | none => (none : Option Device)) = none := by
                by_cases hpc : pc = true
                · rw [I7 d hpc (Or.inl rfl)]
                · obtain ⟨hdr, hph⟩ := I2 d rfl (by simpa using hpc)
                  rw [hdr]
                  simp
              refine ⟨?_, ?_, ?_, ?_, ?_, ?_, ?_, ?_, ?_, ?_, I11⟩
              · simp [hdr2, lifecyclePhase]
              · intro d2 h h2
                simp at h
              · intro d2 h h2
                simp at h
              · intro h4
                simp at h4
              · intro h5
                simp at h5
              · intro h6
                simp at h6
              · intro d2 hpc3 h
                simp at h
              · intro d2 h8
                simp at h8
              · intro h9
                simp at h9
              · intro h10
                simp at h10
          | discover d =>
              simp only [step, connectFailStep, connectCatch]
              have hdr2 : (match dr with
                  | some r => if r.id = d.id then none else some r
                  | none => (none : Option Device)) = none := by
                by_cases hpc : pc = true
                · rw [I7 d hpc (Or.inr rfl)]
                · obtain ⟨hdr, hph⟩ := I3 d rfl (by simpa using hpc)
                  rw [hdr]
                  simp
              refine ⟨?_, ?_, ?_, ?_, ?_, ?_, ?_, ?_, ?_, ?_, I11⟩
              · simp [hdr2, lifecyclePhase]
              · intro d2 h h2
                simp at h
              · intro d2 h h2
                simp at h
              · intro h4
                simp at h4
              · intro h5
                simp at h5
              · intro h6
                simp at h6
              · intro d2 hpc3 h
                simp at h
              · intro d2 h8
                simp at h8
              · intro h9
                simp at h9
              · intro h10
                simp at h10
  | userDisconnect =>
      simp only [step, disconnectBegin]
      by_cases hic : ic = true
      · rw [if_pos hic]
        exact ⟨I1, I2, I3, I4, I5, I6, I7, I8, I9, I10, I11⟩
      · rw [if_neg hic]
        cases dr with
        | none => exact ⟨I1, I2, I3, I4, I5, I6, I7, I8, I9, I10, I11⟩
        | some r =>
            have hlc : lifecyclePhase ph := I1.mp (by simp)
            have hcd : ¬ cd = none := by
              rcases hlc with h | h | h | h
              · exact absurd (I4 (Or.inl h)) hic
              · exact absurd (I4 (Or.inr h)) hic
              · exact I5 h
              · exact (I6 h).1
            refine ⟨?_, ?_, ?_, ?_, ?_, ?_, ?_, ?_, ?_, ?_, I11⟩
            · simp [lifecyclePhase]
            · intro d2 h h2
              simp at h
            · intro d2 h h2
              simp at h
            · intro h4
              simp at h4
            · intro h5
              simp at h5
            · intro h6
              exact ⟨hcd, by simp⟩
            · intro d2 hpc3 h
              simp at h
            · intro d2 h8
              simp at h8
            · intro h9
              rfl
            · intro h10
              exact Or.inl rfl
  | disconnectOk =>
      simp only [step, disconnectOkStep]
      by_cases hp : pd = some Pending.disconnect
      · rw [if_pos hp]
        have hph := I10 hp
        refine ⟨I1, ?_, ?_, ?_, I5, I6, ?_, ?_, ?_, ?_, I11⟩
        · intro d2 h h2
          simp at h
        · intro d2 h h2
          simp at h
        · intro h4
          rcases hph with h | h <;> rcases h4 with h4 | h4 <;> simp [h] at h4
        · intro d2 hpc3 h
          simp at h
        · intro d2 h8
          simp at h8
        · intro h9
          simp at h9
        · intro h10
          simp at h10
      · rw [if_neg hp]
        exact ⟨I1, I2, I3, I4, I5, I6, I7, I8, I9, I10, I11⟩
  | disconnectFail =>
      simp only [step, disconnectFailStep]
      by_cases hp : pd = some Pending.disconnect
      · rw [if_pos hp]
        refine ⟨?_, ?_, ?_, ?_, ?_, ?_, ?_, ?_, ?_, ?_, I11⟩
        · simp [lifecyclePhase]
        · intro d2 h h2
          simp at h
        · intro d2 h h2
          simp at h
        · intro h4
          simp at h4
        · intro h5
          simp at h5
        · intro h6
          simp at h6
        · intro d2 hpc3 h
          simp at h
        · intro d2 h8
          simp at h8
        · intro h9
          simp at h9
        · intro h10
          simp at h10
      · rw [if_neg hp]
        exact ⟨I1, I2, I3, I4, I5, I6, I7, I8, I9, I10, I11⟩
  | unsolicited =>
      simp only [step, onDisconnectedFire]
      by_cases hds : ds ≠ none
      · rw [if_pos hds]
        refine ⟨?_, ?_, ?_, ?_, ?_, ?_, ?_, ?_, ?_, ?_, I11⟩
        · simp [lifecyclePhase]
        · intro d2 h h2
          simp at h2
        · intro d2 h h2
          simp at h2
        · intro h4
          simp at h4
        · intro h5
          simp at h5
        · intro h6
          simp at h6
        · intro d2 hpc3 h
          rfl
        · intro d2 h8
          exact I8 d2 h8
        · exact I9
        · intro h10
          exact Or.inr rfl
      · rw [if_neg hds]
        exact ⟨I1, I2, I3, I4, I5, I6, I7, I8, I9, I10, I11⟩
  | sendPress ok =>
      cases ok <;> simp only [step, sendData] <;> split_ifs <;>
        exact ⟨I1, I2, I3, I4, I5, I6, I7, I8, I9, I10, I11⟩
  | readPress outcome =>
      simp only [step, readData]
      cases outcome <;> split_ifs <;>
        exact ⟨I1, I2, I3, I4, I5, I6, I7, I8, I9, I10, I11⟩

/-- The invariant holds along every event trace. -/
theorem Inv_run (tr : List Event) (s : CState) (h : Inv s) : Inv (run tr s) := by
  induction tr generalizing s with
  | nil => exact h
  | cons e rest ih => exact ih (step e s) (Inv_step e s h)

/-- C9: in every state reachable by any sequence of operations and platform
events from the initial state, the session's target device reference
(`deviceRef`) is non-null exactly when the session is in a
connection-lifecycle phase (Connecting, Discovering, Ready, Disconnecting);
in the rest phases (Idle, Scanning, Disconnected) it is null. -/
theorem targetRef_iff_lifecycle (tr : List Event) :
    ((run tr initState).deviceRef ≠ none ↔ lifecyclePhase (run tr initState).phase) :=
  (Inv_run tr initState Inv_init).1

end BLEApp
